import Mathlib

/-!
Shallow embedding of the cesium_web backend (files `cesium_app/flask_server.py`,
`cesium_app/handlers/model.py`, `cesium_app/handlers/prediction.py`).

Conventions of the embedding:
* File contents are lists of lines (strings, without the trailing newline);
  Python `str.strip` is embedded as `strip` (drop whitespace at both ends)
  and `str.split(sep)` for a one-character separator as `splitStr`, both
  structurally recursive so that concrete inputs evaluate in the kernel.
* Database records become Lean structures; a nullable column is an `Option`.
* The external executor is modelled by the keys it hands out: submitting the
  i-th task of a request returns key `k0 + i` where `k0` is the first free key.
* A handler body becomes a function producing the ordered list of observable
  events it performs (file saves/removals, record creation/saves/deletes,
  executor submissions, waiter spawns, notifications, responses); an uncaught
  Python exception becomes an `Except.error`, or, for a handler that performs
  events before raising, a `raised` message alongside the partial trace.
* Timestamps (`datetime.datetime.now()`) are passed in as an abstract `Nat`;
  model training scores are opaque values passed through, embedded as `Int`.
-/

namespace Cesium

/-- Events a handler or background waiter can perform, in program order. -/
inductive Event
  | saveFile (which : String)
  | removeFile (which : String)
  | createRecord (task_id : Option Nat) (finished : Option Nat)
  | createDataset
  | submitTask (key : Nat)
  | saveRecord (task_id : Option Nat) (finished : Option Nat)
  | deleteRecord
  | spawnWaiter (key : Nat)
  | showNotification (note : String) (isError : Bool)
  | fetchAction (what : String)
  | respondSuccess
  | respondError (msg : String)
  deriving DecidableEq, Repr

/-- `ownership`: the ORM layer (`cesium_app/models.py`) is not part of the
handler sources. Modelled from the spec: entities are plain ORM records
"each with ownership"; `is_owned_by` compares the record owner with the
requesting username. -/
def is_owned_by (owner username : String) : Bool :=
  owner == username

/-- Python `str.strip` on a character list: drop leading and trailing
whitespace. -/
def stripChars (cs : List Char) : List Char :=
  ((cs.dropWhile Char.isWhitespace).reverse.dropWhile Char.isWhitespace).reverse

/-- Python `str.strip`. -/
def strip (s : String) : String :=
  ⟨stripChars s.data⟩

/-- Python `str.split(c)` for a one-character separator, on a character
list: splitting the empty string yields one empty field, and every
occurrence of the separator starts a new field. -/
def splitOnChar (c : Char) : List Char → List (List Char)
  | [] => [[]]
  | x :: xs =>
      if x == c then [] :: splitOnChar c xs
      else
        match splitOnChar c xs with
        | [] => [[x]]
        | y :: ys => (x :: y) :: ys

/-- Python `str.split(c)` for a one-character separator. -/
def splitStr (c : Char) (s : String) : List String :=
  (splitOnChar c s.data).map fun cs => ⟨cs⟩

/-- A `Model` row as used by `handlers/model.py`: `task_id` and `finished`
are nullable columns; `train_score` is set by the waiter; `params` is the
hyperparameter dict. -/
structure ModelRecord where
  owner : String
  name : String
  type : String
  task_id : Option Nat
  finished : Option Nat
  train_score : Option Int
  params : List (String × String)
  deriving DecidableEq, Repr

/-- A `Prediction` row as used by `handlers/prediction.py`. -/
structure PredictionRecord where
  owner : String
  dataset_name : String
  model_name : String
  task_id : Option Nat
  finished : Option Nat
  deriving DecidableEq, Repr

/-- A `Featureset` row, as read by the handlers (ownership and the
`finished` timestamp guard). -/
structure Featureset where
  owner : String
  file_uri : String
  finished : Option Nat
  deriving DecidableEq, Repr

/-- A `Dataset` row, as read by the handlers. -/
structure DatasetRecord where
  owner : String
  name : String
  uris : List String
  deriving DecidableEq, Repr

/-- A `Project` row, as read by `flask_server.py`. -/
structure ProjectRecord where
  owner : String
  name : String
  description : String
  deriving DecidableEq, Repr

/-- Terminal fate of a job record after its background waiter ran:
either the updated record was saved, or the record was deleted. -/
inductive JobOutcome (R : Type)
  | finished (r : R)
  | deleted
  deriving DecidableEq, Repr

/-- Python `dict.update`: existing keys are overwritten in place, new keys
are appended. -/
def dictUpdate (d upd : List (String × String)) : List (String × String) :=
  (d.map fun kv =>
    match upd.find? (fun u => u.1 == kv.1) with
    | some u => u
    | none => kv) ++
  upd.filter (fun u => ¬ d.any (fun kv => kv.1 == u.1))

/-- `ModelHandler._await_model_statistics` (`handlers/model.py` lines 94-114):
await the training future; on success clear `task_id`, set `finished`,
store the score, merge the best params, save, and notify; on any exception
delete the record and emit an error notification; in both cases refresh
the front-end model list. -/
def await_model_statistics (now : Nat)
    (res : Except String (Int × List (String × String)))
    (model : ModelRecord) : JobOutcome ModelRecord × List Event :=
  match res with
  | .ok (score, best_params) =>
      let m := { model with
                  task_id := none
                  finished := some now
                  train_score := some score
                  params := dictUpdate model.params best_params }
      (.finished m,
       [.saveRecord m.task_id m.finished,
        .showNotification ("Model " ++ model.name ++ " computed.") false,
        .fetchAction "cesium/FETCH_MODELS"])
  | .error e =>
      (.deleted,
       [.deleteRecord,
        .showNotification ("Cannot create model " ++ model.name ++ ": " ++ e) true,
        .fetchAction "cesium/FETCH_MODELS"])

/-- `PredictionHandler._await_prediction` (`handlers/prediction.py` lines
36-63): await the prediction future; on success clear `task_id`, set
`finished`, save, and notify; on any exception delete the record and emit
an error notification; in both cases refresh the front-end predictions. -/
def await_prediction (now : Nat) (res : Except String Unit)
    (prediction : PredictionRecord) : JobOutcome PredictionRecord × List Event :=
  match res with
  | .ok _ =>
      let p := { prediction with task_id := none, finished := some now }
      (.finished p,
       [.saveRecord p.task_id p.finished,
        .showNotification ("Prediction " ++ prediction.dataset_name ++ "/" ++
          prediction.model_name ++ " completed.") false,
        .fetchAction "cesium/FETCH_PREDICTIONS"])
  | .error e =>
      (.deleted,
       [.deleteRecord,
        .showNotification ("Prediction " ++ prediction.dataset_name ++ "/" ++
          prediction.model_name ++ " failed with error " ++ e ++
          ". Please try again.") true,
        .fetchAction "cesium/FETCH_PREDICTIONS"])

/-- Result of a POST handler: the events performed before the handler
returned or raised, the job record as persisted when the handler stopped
(if one was created), and the message of an uncaught exception when the
handler raised instead of responding. -/
structure PostOutcome (R : Type) where
  events : List Event
  pending : Option R
  raised : Option String
  deriving DecidableEq, Repr

/-- `ModelHandler.post` (`handlers/model.py` lines 116-161): guard on
featureset ownership and completeness, create the model record, submit
the training task, store the returned future key as `task_id`, save, and
spawn the waiter. `nextKey` is the key the executor assigns to the
submitted future. -/
def ModelHandler_post (username : String) (fset : Featureset)
    (model_name model_type : String) (model_params : List (String × String))
    (nextKey : Nat) : PostOutcome ModelRecord :=
  if ¬ is_owned_by fset.owner username then
    ⟨[.respondError "No access to featureset"], none, none⟩
  else if fset.finished = none then
    ⟨[.respondError "Cannot build model for in-progress feature set"], none, none⟩
  else
    let created : ModelRecord :=
      { owner := fset.owner, name := model_name, type := model_type,
        task_id := none, finished := none, train_score := none,
        params := model_params }
    ⟨[.createRecord created.task_id created.finished,
      .submitTask nextKey,
      .saveRecord (some nextKey) none,
      .spawnWaiter nextKey,
      .respondSuccess],
     some { created with task_id := some nextKey }, none⟩

/-- `PredictionHandler.post` (`handlers/prediction.py` lines 65-125): guard
on dataset/model ownership and on model/featureset completeness, create
the prediction record, then start the pipeline: `executor.map` over the
dataset URIs twice (`cesium.time_series.from_netcdf`,
`cesium.featurize.featurize_single_ts`) and one `executor.submit`
(`cesium.featurize.assemble_featureset`). The next step (line 101)
evaluates the bare name `featurize`, but the module only imports
`cesium.featurize`, so the handler raises `NameError` there; the rest of
the body — the remaining submits, `prediction.task_id = future.key`, the
save, the waiter spawn and the success response (lines 102-125) — is
unreachable. The created record stays persisted with its null
`task_id`/`finished` defaults. `k0` is the first executor key assigned to
this request. -/
def PredictionHandler_post (username : String) (dataset : DatasetRecord)
    (model : ModelRecord) (fset : Featureset) (k0 : Nat) :
    PostOutcome PredictionRecord :=
  if ¬ (is_owned_by dataset.owner username && is_owned_by model.owner username) then
    ⟨[.respondError "No access to dataset or model"], none, none⟩
  else if model.finished = none ∨ fset.finished = none then
    ⟨[.respondError "Computation of model or feature set still in progress"],
     none, none⟩
  else
    let n := dataset.uris.length
    ⟨[.createRecord none none] ++
      ((List.range n).map fun i => .submitTask (k0 + i)) ++
      ((List.range n).map fun i => .submitTask (k0 + n + i)) ++
      [.submitTask (k0 + 2 * n)],
     some { owner := dataset.owner, dataset_name := dataset.name,
            model_name := model.name, task_id := none, finished := none },
     some "NameError: name featurize is not defined"⟩

/-- Exceptions a handler can let escape: `UnauthorizedAccess` is raised by
the flask routes, `AccessError` by the tornado handlers. -/
inductive ServerError
  | unauthorizedAccess (msg : String)
  | accessError (msg : String)
  | uncaught (msg : String)
  deriving DecidableEq, Repr

/-- The two exception classes raised by
`check_headerfile_and_tsdata_format`. -/
inductive CheckError
  | dataFormat (msg : String)
  | tsFileName (msg : String)
  deriving DecidableEq, Repr

/-- A member of the uploaded tarball: its archive name, whether it is a
regular file, and its content as a list of lines. -/
structure TarMember where
  name : String
  isfile : Bool
  lines : List String
  deriving DecidableEq, Repr

/-- Python `os.path.basename`: everything after the last slash. -/
def basename (p : String) : String :=
  (splitStr '/' p).getLastD p

/-- Python `str.rfind` over a character list: index of the last occurrence
of `c`, or `-1` when absent. -/
def rfind (cs : List Char) (c : Char) : Int :=
  match (List.range cs.length).filter (fun i => cs.getD i ' ' == c ∧ i < cs.length) |>.getLast? with
  | some i => (i : Int)
  | none => -1

/-- Python `os.path.splitext(p)[0]`: drop the extension starting at the
last dot, provided that dot lies after the last slash and the basename up
to it is not entirely dots. -/
def splitextRoot (p : String) : String :=
  let cs := p.data
  let sepIndex := rfind cs '/'
  let dotIndex := rfind cs '.'
  if dotIndex > sepIndex then
    if ((List.range cs.length).filter
          (fun i => sepIndex < Int.ofNat i ∧ Int.ofNat i < dotIndex)).any
        (fun i => cs.getD i ' ' ≠ '.') then
      ⟨cs.take dotIndex.toNat⟩
    else p
  else p

/-- `list_filename_variants` (`flask_server.py` lines 401-406): the file
name, its basename, and both with the extension stripped. -/
def list_filename_variants (file_name : String) : List String :=
  [file_name, basename file_name, splitextRoot file_name,
   splitextRoot (basename file_name)]

/-- Header-file scan of `check_headerfile_and_tsdata_format`
(`flask_server.py` lines 343-354): every non-blank line must have at least
two comma-separated columns; collect the first column of each. -/
def parseHeader : List String → Except CheckError (List String)
  | [] => .ok []
  | line :: rest =>
      if strip line = "" then parseHeader rest
      else if (splitStr ',' (strip line)).length < 2 then
        .error (.dataFormat ("Header file improperly formatted. At least two " ++
          "comma-separated columns (file_name,class_name) are required."))
      else
        match parseHeader rest with
        | .error e => .error e
        | .ok tail => .ok ((splitStr ',' (strip line)).headD "" :: tail)

/-- Per-line column check of a tarball data file (`flask_server.py` lines
383-392): every later line must have as many comma-separated columns as
the first. `line_no` is the 1-based position within the non-blank lines. -/
def checkRestLines (file_name : String) (num_labels : Nat) :
    Nat → List String → Except CheckError Unit
  | _, [] => .ok ()
  | line_no, line :: rest =>
      if (splitStr ',' line).length ≠ num_labels then
        .error (.dataFormat ("Time series data file improperly formatted; in " ++
          "file " ++ file_name ++ " line number " ++ toString line_no ++
          " has " ++ toString (splitStr ',' line).length ++
          " columns while the first line has " ++ toString num_labels ++
          " columns."))
      else checkRestLines file_name num_labels (line_no + 1) rest

/-- Content check of one tarball data file (`flask_server.py` lines
369-392): strip and drop blank lines, require at least two columns on the
first line, and a consistent column count on the rest. -/
def checkDataLines (file_name : String) (raw : List String) :
    Except CheckError Unit :=
  match (raw.map strip).filter (fun l => l ≠ "") with
  | [] => .ok ()
  | first :: rest =>
      let num_labels := (splitStr ',' first).length
      if num_labels < 2 then
        .error (.dataFormat ("Time series data file improperly formatted; at " ++
          "least two comma-separated columns (time,measurement) are " ++
          "required. Error occurred on file " ++ file_name))
      else checkRestLines file_name num_labels 2 rest

/-- Tarball scan of `check_headerfile_and_tsdata_format` (`flask_server.py`
lines 355-392): every regular file must have a name variant listed in the
header, and well-formed columns; returns the accumulated name variants of
all regular files. -/
def checkMembers (all_header_fnames : List String) :
    List TarMember → Except CheckError (List String)
  | [] => .ok []
  | mem :: rest =>
      if mem.isfile then
        if (list_filename_variants mem.name).all
            (fun v => ¬ all_header_fnames.contains v) then
          .error (.tsFileName ("Time series data file " ++ mem.name ++
            " provided in tarball/zip file has no corresponding entry in " ++
            "header file."))
        else
          match checkDataLines mem.name mem.lines with
          | .error e => .error e
          | .ok _ =>
              match checkMembers all_header_fnames rest with
              | .error e => .error e
              | .ok tail => .ok (list_filename_variants mem.name ++ tail)
      else checkMembers all_header_fnames rest

/-- Final header coverage check (`flask_server.py` lines 393-398): every
header entry must match some name variant found in the tarball; on success
the function returns `False`. -/
def checkHeaderCovered (all_fname_variants : List String) :
    List String → Except CheckError Bool
  | [] => .ok false
  | header_fname :: rest =>
      if all_fname_variants.contains header_fname then
        checkHeaderCovered all_fname_variants rest
      else
        .error (.tsFileName ("Header file entry with file_name=" ++
          header_fname ++ " has no corresponding file in provided " ++
          "tarball/zip file."))

/-- `check_headerfile_and_tsdata_format` (`flask_server.py` lines 314-398)
on the contents of the header file and tarball: returns `False` when both
are well formed, otherwise raises `DataFormatError` or
`TimeSeriesFileNameError`. -/
def check_headerfile_and_tsdata_format (header : List String)
    (tar : List TarMember) : Except CheckError Bool :=
  match parseHeader header with
  | .error e => .error e
  | .ok all_header_fnames =>
      match checkMembers all_header_fnames tar with
      | .error e => .error e
      | .ok all_fname_variants =>
          checkHeaderCovered all_fname_variants all_header_fnames

/-- The `POST /project` branch (`flask_server.py` lines 57-71):
`Project.add_by` runs inside `try/except Exception`; any failure becomes a
JSON error response, success pushes `FETCH_PROJECTS` and responds. -/
def Project_post (addResult : Except String Unit) :
    Except ServerError (List Event) :=
  match addResult with
  | .error e => .ok [.respondError e]
  | .ok _ => .ok [.fetchAction "FETCH_PROJECTS", .respondSuccess]

/-- The `DELETE /project/<id>` branch (`flask_server.py` lines 102-116):
missing id yields a JSON error; an owned project is deleted; otherwise
`UnauthorizedAccess` is raised (uncaught). -/
def Project_delete (username : String) (project_id : Option Nat)
    (p : ProjectRecord) : Except ServerError (List Event) :=
  match project_id with
  | none => .ok [.respondError "Invalid request - project ID not provided."]
  | some _ =>
      if is_owned_by p.owner username then
        .ok [.deleteRecord, .fetchAction "FETCH_PROJECTS", .respondSuccess]
      else
        .error (.unauthorizedAccess "User not authorized for project.")

/-- The `DELETE /dataset/<id>` branch (`flask_server.py` lines 204-217). -/
def Dataset_delete (username : String) (dataset_id : Option Nat)
    (d : DatasetRecord) : Except ServerError (List Event) :=
  match dataset_id with
  | none => .ok [.respondError "Invalid request - data set ID not provided."]
  | some _ =>
      if is_owned_by d.owner username then
        .ok [.deleteRecord, .respondSuccess]
      else
        .error (.unauthorizedAccess "User not authorized for project.")

/-- The `DELETE /features/<id>` branch (`flask_server.py` lines 285-298). -/
def Features_delete (username : String) (featureset_id : Option Nat)
    (f : Featureset) : Except ServerError (List Event) :=
  match featureset_id with
  | none => .ok [.respondError "Invalid request - feature set ID not provided."]
  | some _ =>
      if is_owned_by f.owner username then
        .ok [.deleteRecord, .respondSuccess]
      else
        .error (.unauthorizedAccess "User not authorized for project.")

/-- `ModelHandler._get_model` (`handlers/model.py` lines 74-83): a missing
record or a record not owned by the user raises `AccessError`. `lookup` is
the result of `Model.get`. -/
def ModelHandler_get_model (username : String) (lookup : Option ModelRecord) :
    Except ServerError ModelRecord :=
  match lookup with
  | none => .error (.accessError "No such model")
  | some m =>
      if ¬ is_owned_by m.owner username then
        .error (.accessError "No such project")
      else .ok m

/-- `ModelHandler.delete` (`handlers/model.py` lines 164-168). -/
def ModelHandler_delete (username : String) (lookup : Option ModelRecord) :
    Except ServerError (List Event) :=
  match ModelHandler_get_model username lookup with
  | .error e => .error e
  | .ok _ =>
      .ok [.deleteRecord, .fetchAction "cesium/FETCH_MODELS", .respondSuccess]

/-- `PredictionHandler._get_prediction` (`handlers/prediction.py` lines
25-34). -/
def PredictionHandler_get_prediction (username : String)
    (lookup : Option PredictionRecord) : Except ServerError PredictionRecord :=
  match lookup with
  | none => .error (.accessError "No such dataset")
  | some d =>
      if ¬ is_owned_by d.owner username then
        .error (.accessError "No such dataset")
      else .ok d

/-- `PredictionHandler.delete` (`handlers/prediction.py` lines 155-159). -/
def PredictionHandler_delete (username : String)
    (lookup : Option PredictionRecord) : Except ServerError (List Event) :=
  match PredictionHandler_get_prediction username lookup with
  | .error e => .error e
  | .ok _ =>
      .ok [.deleteRecord, .fetchAction "cesium/FETCH_PREDICTIONS", .respondSuccess]

/-- The `POST /dataset` branch (`flask_server.py` lines 141-191): reject a
blank name before touching any file; save the header file and tarball;
validate with `check_headerfile_and_tsdata_format`; on `DataFormatError`
or `TimeSeriesFileNameError` remove both saved files and respond with the
error; on success store the time series and create the dataset record. -/
def Dataset_post (dataset_name_raw : String) (header : List String)
    (tar : List TarMember) : Except ServerError (List Event) :=
  let dataset_name := strip dataset_name_raw
  if dataset_name = "" then
    .ok [.respondError ("Dataset Title must contain non-whitespace " ++
      "characters. Please try a different title.")]
  else
    let saved : List Event := [.saveFile "headerfile", .saveFile "zipfile"]
    match check_headerfile_and_tsdata_format header tar with
    | .error (.dataFormat err) =>
        .ok (saved ++ [.removeFile "headerfile", .removeFile "zipfile",
                       .respondError err])
    | .error (.tsFileName err) =>
        .ok (saved ++ [.removeFile "headerfile", .removeFile "zipfile",
                       .respondError err])
    | .ok _ =>
        .ok (saved ++ [.createDataset, .respondSuccess])

/-- An exception raised by the dataset-upload validation call, as seen by
the `try/except` ladder around it: one of the two validation errors, or
any other exception (an IO or tarfile error while reading the saved
files). -/
inductive ValidationExc
  | dataFormat (msg : String)
  | tsFileName (msg : String)
  | other (msg : String)
  deriving DecidableEq, Repr

/-- The `try/except` ladder around `check_headerfile_and_tsdata_format`
in the `POST /dataset` branch (`flask_server.py` lines 168-181), given
the exception the call raised: `DataFormatError` and
`TimeSeriesFileNameError` are handled by removing both saved files and
responding with the error; the final bare `except: raise` re-raises every
other exception uncaught, with no cleanup. -/
def Dataset_post_exception_ladder : ValidationExc →
    Except ServerError (List Event)
  | .dataFormat err =>
      .ok [.removeFile "headerfile", .removeFile "zipfile", .respondError err]
  | .tsFileName err =>
      .ok [.removeFile "headerfile", .removeFile "zipfile", .respondError err]
  | .other msg => .error (.uncaught msg)

/-- The `POST /features` branch (`flask_server.py` lines 240-272): parse
the form and, when the custom-script flag is set, save the uploaded
custom-script file; then call `featurizationPage(...)` — a name defined
nowhere in the module and not imported — so every features POST raises
`NameError` uncaught. Returns the events performed before the raise and
the exception message. -/
def Features_post (custom_script_tested : Bool) :
    List Event × Option String :=
  (if custom_script_tested then [.saveFile "custom script"] else [],
   some "NameError: name featurizationPage is not defined")

/-! Spec-level descriptions of the upload-validation error conditions,
stated directly from the claim so they can be compared with
`check_headerfile_and_tsdata_format`. -/

/-- The header file has a non-blank line with fewer than two
comma-separated columns. -/
def headerBadCond (header : List String) : Bool :=
  header.any fun l =>
    decide (strip l ≠ "") && decide ((splitStr ',' (strip l)).length < 2)

/-- The file names listed in a well-formed header: first column of each
non-blank line. -/
def specHeaderFnames (header : List String) : List String :=
  ((header.map strip).filter (fun l => l ≠ "")).map
    fun l => (splitStr ',' l).headD ""

/-- A data file's non-blank lines have a first line with fewer than two
comma-separated columns, or a later line whose column count differs from
the first line's. -/
def linesBad (raw : List String) : Bool :=
  match (raw.map strip).filter (fun l => l ≠ "") with
  | [] => false
  | first :: rest =>
      decide ((splitStr ',' first).length < 2) ||
      rest.any fun l =>
        decide ((splitStr ',' l).length ≠ (splitStr ',' first).length)

/-- A tarball member that is a regular file with bad columns. -/
def memberColumnsBad (mem : TarMember) : Bool :=
  mem.isfile && linesBad mem.lines

/-- The claim's `DataFormatError` condition: the header file or some data
file has fewer than two comma-separated columns, or a data file has
inconsistent column counts across lines. -/
def dataFormatCond (header : List String) (tar : List TarMember) : Bool :=
  headerBadCond header || tar.any memberColumnsBad

/-- A regular tarball member none of whose name variants appears among the
header entries. -/
def memberNameMissing (hns : List String) (mem : TarMember) : Bool :=
  mem.isfile &&
    (list_filename_variants mem.name).all fun v => ¬ hns.contains v

/-- All name variants contributed by the regular files of the tarball. -/
def specAllVariants (tar : List TarMember) : List String :=
  (tar.filter (fun mem => mem.isfile)).flatMap fun mem =>
    list_filename_variants mem.name

/-- The claim's `TimeSeriesFileNameError` condition: a data file in the
tarball has no matching header entry, or a header entry has no matching
file in the tarball. -/
def tsNameCond (header : List String) (tar : List TarMember) : Bool :=
  tar.any (memberNameMissing (specHeaderFnames header)) ||
  (specHeaderFnames header).any fun h => ¬ (specAllVariants tar).contains h

/-! State machine of a job record, for the `task_id`/`finished`
invariant. -/

/-- The persisted state of one job record: present with its nullable
`task_id` and `finished` columns, or deleted. -/
inductive JobState
  | present (task_id : Option Nat) (finished : Option Nat)
  | deleted
  deriving DecidableEq, Repr

/-- Job state resulting from a model waiter run. -/
def modelOutcomeState : JobOutcome ModelRecord × List Event → JobState
  | (.finished m, _) => .present m.task_id m.finished
  | (.deleted, _) => .deleted

/-- Job state resulting from a prediction waiter run. -/
def predOutcomeState : JobOutcome PredictionRecord × List Event → JobState
  | (.finished p, _) => .present p.task_id p.finished
  | (.deleted, _) => .deleted

/-- Record states reachable by the operations the handlers perform on a
job record. Creation defaults are modelled from the spec: the ORM layer
(`models.py`, not among the handler sources) creates the record with its
nullable `task_id`/`finished` pair unset; the handler then assigns the
submitted future's key and saves; the waiters make the remaining
transitions via `await_model_statistics` / `await_prediction`. -/
inductive JobReachable : JobState → Prop
  | created : JobReachable (.present none none)
  | assigned (k : Nat) :
      JobReachable (.present none none) → JobReachable (.present (some k) none)
  | modelWaited (now : Nat) (res : Except String (Int × List (String × String)))
      (m : ModelRecord) :
      JobReachable (.present m.task_id m.finished) →
      JobReachable (modelOutcomeState (await_model_statistics now res m))
  | predWaited (now : Nat) (res : Except String Unit) (p : PredictionRecord) :
      JobReachable (.present p.task_id p.finished) →
      JobReachable (predOutcomeState (await_prediction now res p))

/-- Mutual exclusion of the `task_id`/`finished` pair. -/
def mutexState : JobState → Prop
  | .present task_id finished => task_id = none ∨ finished = none
  | .deleted => True

/-! Small observers on event lists. -/

/-- Is this event an executor submission? -/
def isSubmitEvent : Event → Bool
  | .submitTask _ => true
  | _ => false

/-- Is this event a waiter spawn? -/
def isSpawnEvent : Event → Bool
  | .spawnWaiter _ => true
  | _ => false

/-- Is this event a record creation (of either kind)? -/
def isCreateEvent : Event → Bool
  | .createRecord _ _ => true
  | .createDataset => true
  | _ => false

/-- Number of executor submissions in a trace. -/
def countSubmits (evs : List Event) : Nat :=
  (evs.filter isSubmitEvent).length

/-- Number of waiter spawns in a trace. -/
def countSpawns (evs : List Event) : Nat :=
  (evs.filter isSpawnEvent).length

/-- The message carried by a validation exception. -/
def checkErrorMessage : CheckError → String
  | .dataFormat msg => msg
  | .tsFileName msg => msg

/-- A concrete pending Model record, for witnesses. -/
def pendingModelExample : ModelRecord :=
  ⟨"u", "m", "t", some 3, none, none, []⟩

/-- A concrete pending Prediction record, for witnesses. -/
def pendingPredictionExample : PredictionRecord :=
  ⟨"u", "d", "m", some 4, none⟩

/-- A concrete finished Model record (a trained model), for witnesses. -/
def pendingModelFinishedExample : ModelRecord :=
  ⟨"u", "m", "t", none, some 5, some 0, []⟩

/-! ## Theorems -/

/-- C1: for every job record (Model or Prediction) whose background waiter
runs on a pending record (non-null `task_id`, null `finished`), the record
reaches exactly one of two terminal outcomes: on success it is finished
(`task_id` cleared to null, `finished` set, record saved, success
notification emitted); on any error it is deleted and an error
notification is emitted. The disjunction is exhaustive over the awaited
result, so no third terminal state is reachable. -/
theorem C1_waiter_two_terminal_outcomes
    (nowM nowP : Nat) (resM : Except String (Int × List (String × String)))
    (resP : Except String Unit) (m : ModelRecord) (p : PredictionRecord)
    (kM kP : Nat)
    (hM : m.task_id = some kM ∧ m.finished = none)
    (hP : p.task_id = some kP ∧ p.finished = none) :
    ((∃ m', (await_model_statistics nowM resM m).1 = .finished m' ∧
        m'.task_id = none ∧ m'.finished = some nowM ∧
        Event.saveRecord none (some nowM) ∈ (await_model_statistics nowM resM m).2 ∧
        ∃ note, Event.showNotification note false ∈ (await_model_statistics nowM resM m).2) ∨
      ((await_model_statistics nowM resM m).1 = .deleted ∧
        Event.deleteRecord ∈ (await_model_statistics nowM resM m).2 ∧
        ∃ note, Event.showNotification note true ∈ (await_model_statistics nowM resM m).2)) ∧
    ((∃ p', (await_prediction nowP resP p).1 = .finished p' ∧
        p'.task_id = none ∧ p'.finished = some nowP ∧
        Event.saveRecord none (some nowP) ∈ (await_prediction nowP resP p).2 ∧
        ∃ note, Event.showNotification note false ∈ (await_prediction nowP resP p).2) ∨
      ((await_prediction nowP resP p).1 = .deleted ∧
        Event.deleteRecord ∈ (await_prediction nowP resP p).2 ∧
        ∃ note, Event.showNotification note true ∈ (await_prediction nowP resP p).2)) := by
  constructor
  · rcases resM with e | ⟨score, bp⟩
    · exact Or.inr (by simp [await_model_statistics])
    · exact Or.inl (by simp [await_model_statistics])
  · rcases resP with e | u
    · exact Or.inr (by simp [await_prediction])
    · exact Or.inl (by simp [await_prediction])

/-- Witness for C1 at concrete pending records. -/
theorem C1_witness :
    ((∃ m', (await_model_statistics 9 (.ok (1, [])) pendingModelExample).1 = .finished m' ∧
        m'.task_id = none ∧ m'.finished = some 9 ∧
        Event.saveRecord none (some 9) ∈
          (await_model_statistics 9 (.ok (1, [])) pendingModelExample).2 ∧
        ∃ note, Event.showNotification note false ∈
          (await_model_statistics 9 (.ok (1, [])) pendingModelExample).2) ∨
      ((await_model_statistics 9 (.ok (1, [])) pendingModelExample).1 = .deleted ∧
        Event.deleteRecord ∈
          (await_model_statistics 9 (.ok (1, [])) pendingModelExample).2 ∧
        ∃ note, Event.showNotification note true ∈
          (await_model_statistics 9 (.ok (1, [])) pendingModelExample).2)) ∧
    ((∃ p', (await_prediction 9 (.error "boom") pendingPredictionExample).1 = .finished p' ∧
        p'.task_id = none ∧ p'.finished = some 9 ∧
        Event.saveRecord none (some 9) ∈
          (await_prediction 9 (.error "boom") pendingPredictionExample).2 ∧
        ∃ note, Event.showNotification note false ∈
          (await_prediction 9 (.error "boom") pendingPredictionExample).2) ∨
      ((await_prediction 9 (.error "boom") pendingPredictionExample).1 = .deleted ∧
        Event.deleteRecord ∈
          (await_prediction 9 (.error "boom") pendingPredictionExample).2 ∧
        ∃ note, Event.showNotification note true ∈
          (await_prediction 9 (.error "boom") pendingPredictionExample).2)) :=
  C1_waiter_two_terminal_outcomes 9 9 (.ok (1, [])) (.error "boom")
    pendingModelExample pendingPredictionExample 3 4 ⟨rfl, rfl⟩ ⟨rfl, rfl⟩

/-- C2 (the code contradicts the claim through a slip at `prediction.py`
line 101): every successful model-training POST performs the claimed
steps in order — submit to the executor, store the returned key on the
record and save, spawn the waiter (the three events adjacent, with the
same key) — and the spawned waiter later performs a record update and
emits a notification; the prediction handler as written never reaches
those steps: every request that passes its guards raises `NameError`
after the two mapped stages and the first pipeline submit, stores no
task identifier, spawns no waiter and sends no success response. -/
theorem C2_model_post_order_prediction_post_crashes
    (username : String) (fset : Featureset) (mn mt : String)
    (ps : List (String × String)) (nextKey : Nat)
    (dataset : DatasetRecord) (model : ModelRecord) (fset2 : Featureset)
    (k0 : Nat)
    (h1 : is_owned_by fset.owner username = true)
    (h2 : fset.finished ≠ none)
    (h3 : is_owned_by dataset.owner username = true)
    (h4 : is_owned_by model.owner username = true)
    (h5 : model.finished ≠ none) (h6 : fset2.finished ≠ none) :
    (∃ pre post K,
       (ModelHandler_post username fset mn mt ps nextKey).events =
         pre ++ [.submitTask K, .saveRecord (some K) none, .spawnWaiter K]
             ++ post) ∧
    (ModelHandler_post username fset mn mt ps nextKey).raised = none ∧
    (∀ now res r,
       (Event.saveRecord none (some now) ∈ (await_model_statistics now res r).2 ∨
        Event.deleteRecord ∈ (await_model_statistics now res r).2) ∧
       ∃ note b, Event.showNotification note b ∈
         (await_model_statistics now res r).2) ∧
    (PredictionHandler_post username dataset model fset2 k0).raised =
      some "NameError: name featurize is not defined" ∧
    (∀ k f, Event.saveRecord k f ∉
       (PredictionHandler_post username dataset model fset2 k0).events) ∧
    (∀ k, Event.spawnWaiter k ∉
       (PredictionHandler_post username dataset model fset2 k0).events) ∧
    Event.respondSuccess ∉
      (PredictionHandler_post username dataset model fset2 k0).events := by
  refine ⟨?_, ?_, ?_, ?_, ?_, ?_, ?_⟩
  · refine ⟨[.createRecord none none], [.respondSuccess], nextKey, ?_⟩
    simp [ModelHandler_post, h1, h2]
  · simp [ModelHandler_post, h1, h2]
  · intro now res r
    rcases res with e | ok
    · exact ⟨Or.inr (by simp [await_model_statistics]),
        by simp [await_model_statistics]⟩
    · exact ⟨Or.inl (by simp [await_model_statistics]),
        by simp [await_model_statistics]⟩
  · simp [PredictionHandler_post, h3, h4, h5, h6]
  · intro k f
    simp [PredictionHandler_post, h3, h4, h5, h6]
  · intro k
    simp [PredictionHandler_post, h3, h4, h5, h6]
  · simp [PredictionHandler_post, h3, h4, h5, h6]

/-- Witness for C2 at a concrete request pair: the model POST succeeds
with the ordered triple; the prediction POST raises. -/
theorem C2_witness :
    (∃ pre post K,
       (ModelHandler_post "u" ⟨"u", "f.nc", some 1⟩ "mn" "mt" [] 5).events =
         pre ++ [.submitTask K, .saveRecord (some K) none, .spawnWaiter K]
             ++ post) ∧
    (ModelHandler_post "u" ⟨"u", "f.nc", some 1⟩ "mn" "mt" [] 5).raised = none ∧
    (∀ now res r,
       (Event.saveRecord none (some now) ∈ (await_model_statistics now res r).2 ∨
        Event.deleteRecord ∈ (await_model_statistics now res r).2) ∧
       ∃ note b, Event.showNotification note b ∈
         (await_model_statistics now res r).2) ∧
    (PredictionHandler_post "u" ⟨"u", "d", ["u1"]⟩ pendingModelFinishedExample
      ⟨"u", "f.nc", some 1⟩ 0).raised =
      some "NameError: name featurize is not defined" ∧
    (∀ k f, Event.saveRecord k f ∉
       (PredictionHandler_post "u" ⟨"u", "d", ["u1"]⟩ pendingModelFinishedExample
         ⟨"u", "f.nc", some 1⟩ 0).events) ∧
    (∀ k, Event.spawnWaiter k ∉
       (PredictionHandler_post "u" ⟨"u", "d", ["u1"]⟩ pendingModelFinishedExample
         ⟨"u", "f.nc", some 1⟩ 0).events) ∧
    Event.respondSuccess ∉
      (PredictionHandler_post "u" ⟨"u", "d", ["u1"]⟩ pendingModelFinishedExample
        ⟨"u", "f.nc", some 1⟩ 0).events :=
  C2_model_post_order_prediction_post_crashes "u" ⟨"u", "f.nc", some 1⟩
    "mn" "mt" [] 5 ⟨"u", "d", ["u1"]⟩ pendingModelFinishedExample
    ⟨"u", "f.nc", some 1⟩ 0
    (by decide) (by decide) (by decide) (by decide) (by decide) (by decide)

/-- Submissions built by mapping `submitTask` over keys are all counted. -/
theorem countSubmits_map_submitTask (f : Nat → Nat) (ks : List Nat) :
    countSubmits (ks.map fun i => Event.submitTask (f i)) = ks.length := by
  induction ks with
  | nil => rfl
  | cons k ks ih =>
      simp [countSubmits, isSubmitEvent, List.filter_cons] at ih ⊢
      exact ih

/-- Counting submissions distributes over trace concatenation. -/
theorem countSubmits_append (a b : List Event) :
    countSubmits (a ++ b) = countSubmits a + countSubmits b := by
  simp [countSubmits, List.filter_append]

/-- Counting spawns distributes over trace concatenation. -/
theorem countSpawns_append (a b : List Event) :
    countSpawns (a ++ b) = countSpawns a + countSpawns b := by
  simp [countSpawns, List.filter_append]

/-- Spawns in a mapped submission block: none. -/
theorem countSpawns_map_submitTask (f : Nat → Nat) (ks : List Nat) :
    countSpawns (ks.map fun i => Event.submitTask (f i)) = 0 := by
  induction ks with
  | nil => rfl
  | cons k ks ih =>
      simp only [List.map_cons, countSpawns, List.filter_cons, isSpawnEvent]
      exact ih

/-- C3 counterexample: a prediction POST for a one-URI dataset that
passes the guards performs three executor submissions (two mapped stages
and the first pipeline submit) before raising, so a handler does submit
more than one executor task for one job. -/
theorem C3_counterexample :
    1 < countSubmits ((PredictionHandler_post "u" ⟨"u", "d", ["u1"]⟩
      pendingModelFinishedExample ⟨"u", "f.nc", some 1⟩ 0).events) := by
  decide

/-- C3 amended: the model-training handler performs a single executor
submission and a single await per job (exactly one waiter, on the future
whose key is stored); the prediction handler as written submits
`2 * |dataset.uris| + 1` executor tasks and then raises `NameError`
(`prediction.py` line 101), storing no task identifier and awaiting
nothing — it spawns no waiter. -/
theorem C3_amended_single_await_per_job
    (username : String) (fset : Featureset) (mn mt : String)
    (ps : List (String × String)) (nextKey : Nat)
    (dataset : DatasetRecord) (model : ModelRecord) (fset2 : Featureset)
    (k0 : Nat)
    (h1 : is_owned_by fset.owner username = true)
    (h2 : fset.finished ≠ none)
    (h3 : is_owned_by dataset.owner username = true)
    (h4 : is_owned_by model.owner username = true)
    (h5 : model.finished ≠ none) (h6 : fset2.finished ≠ none) :
    countSubmits (ModelHandler_post username fset mn mt ps nextKey).events = 1 ∧
    countSpawns (ModelHandler_post username fset mn mt ps nextKey).events = 1 ∧
    countSubmits (PredictionHandler_post username dataset model fset2 k0).events
      = 2 * dataset.uris.length + 1 ∧
    countSpawns (PredictionHandler_post username dataset model fset2 k0).events
      = 0 ∧
    (PredictionHandler_post username dataset model fset2 k0).raised =
      some "NameError: name featurize is not defined" := by
  have hm : (ModelHandler_post username fset mn mt ps nextKey).events =
      [.createRecord none none, .submitTask nextKey,
       .saveRecord (some nextKey) none, .spawnWaiter nextKey,
       .respondSuccess] := by
    simp [ModelHandler_post, h1, h2]
  have hp : (PredictionHandler_post username dataset model fset2 k0).events =
      [.createRecord none none] ++
      ((List.range dataset.uris.length).map fun i => .submitTask (k0 + i)) ++
      ((List.range dataset.uris.length).map fun i =>
        .submitTask (k0 + dataset.uris.length + i)) ++
      [.submitTask (k0 + 2 * dataset.uris.length)] := by
    simp [PredictionHandler_post, h1, h2, h3, h4, h5, h6]
  refine ⟨?_, ?_, ?_, ?_, ?_⟩
  · rw [hm]; rfl
  · rw [hm]; rfl
  · rw [hp]
    rw [countSubmits_append, countSubmits_append, countSubmits_append,
        countSubmits_map_submitTask, countSubmits_map_submitTask]
    simp [countSubmits, isSubmitEvent, List.filter_cons, List.length_range]
    ring
  · rw [hp]
    rw [countSpawns_append, countSpawns_append, countSpawns_append,
        countSpawns_map_submitTask, countSpawns_map_submitTask]
    rfl
  · simp [PredictionHandler_post, h3, h4, h5, h6]

/-- Witness for C3's amended claim at a concrete request pair. -/
theorem C3_amended_witness :
    countSubmits (ModelHandler_post "u" ⟨"u", "f.nc", some 1⟩ "mn" "mt" [] 5).events
      = 1 ∧
    countSpawns (ModelHandler_post "u" ⟨"u", "f.nc", some 1⟩ "mn" "mt" [] 5).events
      = 1 ∧
    countSubmits (PredictionHandler_post "u" ⟨"u", "d", ["u1"]⟩
      pendingModelFinishedExample ⟨"u", "f.nc", some 1⟩ 0).events
      = 2 * (DatasetRecord.mk "u" "d" ["u1"]).uris.length + 1 ∧
    countSpawns (PredictionHandler_post "u" ⟨"u", "d", ["u1"]⟩
      pendingModelFinishedExample ⟨"u", "f.nc", some 1⟩ 0).events = 0 ∧
    (PredictionHandler_post "u" ⟨"u", "d", ["u1"]⟩ pendingModelFinishedExample
      ⟨"u", "f.nc", some 1⟩ 0).raised =
      some "NameError: name featurize is not defined" :=
  C3_amended_single_await_per_job "u" ⟨"u", "f.nc", some 1⟩ "mn" "mt" [] 5
    ⟨"u", "d", ["u1"]⟩ pendingModelFinishedExample ⟨"u", "f.nc", some 1⟩ 0
    (by decide) (by decide) (by decide) (by decide) (by decide) (by decide)

/-- C5 (the code contradicts the claim through the same slip at
`prediction.py` line 101): for a model job, the task identifier stored on
the persisted record equals the key of the future returned by the
executor at submission time, and neither waiter ever interprets the
stored `task_id` (their behaviour is invariant in it); for a prediction
job the storing assignment (`prediction.task_id = future.key`, line 119)
is unreachable — the handler raises `NameError` first, leaves the record
with a null `task_id`, and performs no record save at all. -/
theorem C5_model_stores_key_prediction_never_stores
    (username : String) (fset : Featureset) (mn mt : String)
    (ps : List (String × String)) (nextKey : Nat)
    (dataset : DatasetRecord) (model : ModelRecord) (fset2 : Featureset)
    (k0 : Nat)
    (h1 : is_owned_by fset.owner username = true)
    (h2 : fset.finished ≠ none)
    (h3 : is_owned_by dataset.owner username = true)
    (h4 : is_owned_by model.owner username = true)
    (h5 : model.finished ≠ none) (h6 : fset2.finished ≠ none) :
    (∃ K r, Event.submitTask K ∈
        (ModelHandler_post username fset mn mt ps nextKey).events ∧
       Event.saveRecord (some K) none ∈
        (ModelHandler_post username fset mn mt ps nextKey).events ∧
       (ModelHandler_post username fset mn mt ps nextKey).pending = some r ∧
       r.task_id = some K) ∧
    (∀ (now : Nat) (res : Except String (Int × List (String × String)))
       (r : ModelRecord) (a b : Option Nat),
       await_model_statistics now res { r with task_id := a } =
       await_model_statistics now res { r with task_id := b }) ∧
    (∀ (now : Nat) (res : Except String Unit) (q : PredictionRecord)
       (a b : Option Nat),
       await_prediction now res { q with task_id := a } =
       await_prediction now res { q with task_id := b }) ∧
    (∀ r, (PredictionHandler_post username dataset model fset2 k0).pending =
       some r → r.task_id = none) ∧
    (∀ k f, Event.saveRecord k f ∉
       (PredictionHandler_post username dataset model fset2 k0).events) ∧
    (PredictionHandler_post username dataset model fset2 k0).raised =
      some "NameError: name featurize is not defined" := by
  refine ⟨?_, ?_, ?_, ?_, ?_, ?_⟩
  · have hpend : (ModelHandler_post username fset mn mt ps nextKey).pending =
        some { owner := fset.owner, name := mn, type := mt,
               task_id := some nextKey, finished := none, train_score := none,
               params := ps } := by
      simp [ModelHandler_post, h1, h2]
    refine ⟨nextKey, _, ?_, ?_, hpend, rfl⟩ <;>
      simp [ModelHandler_post, h1, h2]
  · intro now res r a b
    rcases res with e | ⟨score, bp⟩ <;> rfl
  · intro now res q a b
    rcases res with e | u <;> rfl
  · intro r hr
    by_cases hg : is_owned_by dataset.owner username &&
        is_owned_by model.owner username
    · by_cases hg2 : model.finished = none ∨ fset2.finished = none
      · simp [PredictionHandler_post, hg, hg2] at hr
      · simp [PredictionHandler_post, hg, hg2] at hr
        simp [← hr]
    · simp [PredictionHandler_post, hg] at hr
  · intro k f
    simp [PredictionHandler_post, h3, h4, h5, h6]
  · simp [PredictionHandler_post, h3, h4, h5, h6]

/-- Witness for C5 at a concrete request pair. -/
theorem C5_witness :
    (∃ K r, Event.submitTask K ∈
        (ModelHandler_post "u" ⟨"u", "f.nc", some 1⟩ "mn" "mt" [] 5).events ∧
       Event.saveRecord (some K) none ∈
        (ModelHandler_post "u" ⟨"u", "f.nc", some 1⟩ "mn" "mt" [] 5).events ∧
       (ModelHandler_post "u" ⟨"u", "f.nc", some 1⟩ "mn" "mt" [] 5).pending = some r ∧
       r.task_id = some K) ∧
    (∀ (now : Nat) (res : Except String (Int × List (String × String)))
       (r : ModelRecord) (a b : Option Nat),
       await_model_statistics now res { r with task_id := a } =
       await_model_statistics now res { r with task_id := b }) ∧
    (∀ (now : Nat) (res : Except String Unit) (q : PredictionRecord)
       (a b : Option Nat),
       await_prediction now res { q with task_id := a } =
       await_prediction now res { q with task_id := b }) ∧
    (∀ r, (PredictionHandler_post "u" ⟨"u", "d", ["u1"]⟩
        pendingModelFinishedExample ⟨"u", "f.nc", some 1⟩ 0).pending =
       some r → r.task_id = none) ∧
    (∀ k f, Event.saveRecord k f ∉
       (PredictionHandler_post "u" ⟨"u", "d", ["u1"]⟩
         pendingModelFinishedExample ⟨"u", "f.nc", some 1⟩ 0).events) ∧
    (PredictionHandler_post "u" ⟨"u", "d", ["u1"]⟩ pendingModelFinishedExample
      ⟨"u", "f.nc", some 1⟩ 0).raised =
      some "NameError: name featurize is not defined" :=
  C5_model_stores_key_prediction_never_stores "u" ⟨"u", "f.nc", some 1⟩
    "mn" "mt" [] 5 ⟨"u", "d", ["u1"]⟩ pendingModelFinishedExample
    ⟨"u", "f.nc", some 1⟩ 0
    (by decide) (by decide) (by decide) (by decide) (by decide) (by decide)

/-- C6: a failed job is never retried. When the awaited future raises, the
waiter deletes the record and emits an error notification, and the waiter
performs no executor submission, spawns no waiter, and creates no record
on that path (for either handler). -/
theorem C6_failure_no_retry (nowM nowP : Nat) (eM eP : String)
    (m : ModelRecord) (p : PredictionRecord) :
    ((await_model_statistics nowM (.error eM) m).1 = .deleted ∧
     Event.deleteRecord ∈ (await_model_statistics nowM (.error eM) m).2 ∧
     (∃ note, Event.showNotification note true ∈
        (await_model_statistics nowM (.error eM) m).2) ∧
     (await_model_statistics nowM (.error eM) m).2.all
       (fun ev => !(isSubmitEvent ev) && !(isSpawnEvent ev) &&
                  !(isCreateEvent ev)) = true) ∧
    ((await_prediction nowP (.error eP) p).1 = .deleted ∧
     Event.deleteRecord ∈ (await_prediction nowP (.error eP) p).2 ∧
     (∃ note, Event.showNotification note true ∈
        (await_prediction nowP (.error eP) p).2) ∧
     (await_prediction nowP (.error eP) p).2.all
       (fun ev => !(isSubmitEvent ev) && !(isSpawnEvent ev) &&
                  !(isCreateEvent ev)) = true) := by
  refine ⟨⟨rfl, ?_,
      ⟨"Cannot create model " ++ m.name ++ ": " ++ eM, ?_⟩, ?_⟩,
    ⟨rfl, ?_,
      ⟨"Prediction " ++ p.dataset_name ++ "/" ++ p.model_name ++
         " failed with error " ++ eP ++ ". Please try again.", ?_⟩, ?_⟩⟩ <;>
    simp [await_model_statistics, await_prediction,
      isSubmitEvent, isSpawnEvent, isCreateEvent]

/-- C7: every entity carries ownership (the records embed an `owner` and
the handlers guard on `is_owned_by`), and each of the five DELETE paths
(Project, Dataset, Featureset, Model, Prediction) deletes the record only
when the requesting user owns it; when the user does not own it the
handler raises `UnauthorizedAccess` / `AccessError` and no deletion
happens. -/
theorem C7_delete_only_when_owned
    (username : String) (pid did fid : Nat) (p : ProjectRecord)
    (d : DatasetRecord) (f : Featureset) (mrec : ModelRecord)
    (prec : PredictionRecord) :
    (is_owned_by p.owner username = true →
       Project_delete username (some pid) p =
         .ok [.deleteRecord, .fetchAction "FETCH_PROJECTS", .respondSuccess]) ∧
    (is_owned_by p.owner username = false →
       Project_delete username (some pid) p =
         .error (.unauthorizedAccess "User not authorized for project.")) ∧
    (is_owned_by d.owner username = true →
       Dataset_delete username (some did) d =
         .ok [.deleteRecord, .respondSuccess]) ∧
    (is_owned_by d.owner username = false →
       Dataset_delete username (some did) d =
         .error (.unauthorizedAccess "User not authorized for project.")) ∧
    (is_owned_by f.owner username = true →
       Features_delete username (some fid) f =
         .ok [.deleteRecord, .respondSuccess]) ∧
    (is_owned_by f.owner username = false →
       Features_delete username (some fid) f =
         .error (.unauthorizedAccess "User not authorized for project.")) ∧
    (is_owned_by mrec.owner username = true →
       ModelHandler_delete username (some mrec) =
         .ok [.deleteRecord, .fetchAction "cesium/FETCH_MODELS",
              .respondSuccess]) ∧
    (is_owned_by mrec.owner username = false →
       ModelHandler_delete username (some mrec) =
         .error (.accessError "No such project")) ∧
    (ModelHandler_delete username none = .error (.accessError "No such model")) ∧
    (is_owned_by prec.owner username = true →
       PredictionHandler_delete username (some prec) =
         .ok [.deleteRecord, .fetchAction "cesium/FETCH_PREDICTIONS",
              .respondSuccess]) ∧
    (is_owned_by prec.owner username = false →
       PredictionHandler_delete username (some prec) =
         .error (.accessError "No such dataset")) ∧
    (PredictionHandler_delete username none =
       .error (.accessError "No such dataset")) := by
  refine ⟨fun h => ?_, fun h => ?_, fun h => ?_, fun h => ?_, fun h => ?_,
    fun h => ?_, fun h => ?_, fun h => ?_, rfl, fun h => ?_, fun h => ?_, rfl⟩ <;>
  simp [Project_delete, Dataset_delete, Features_delete, ModelHandler_delete,
    PredictionHandler_delete, ModelHandler_get_model,
    PredictionHandler_get_prediction, h]

/-- Witness for C7: an owned record is deleted; a foreign record raises. -/
theorem C7_witness :
    Project_delete "u" (some 1) ⟨"u", "p", "d"⟩ =
      .ok [.deleteRecord, .fetchAction "FETCH_PROJECTS", .respondSuccess] ∧
    Dataset_delete "u" (some 2) ⟨"bob", "d", []⟩ =
      .error (.unauthorizedAccess "User not authorized for project.") ∧
    Features_delete "u" (some 3) ⟨"u", "f.nc", none⟩ =
      .ok [.deleteRecord, .respondSuccess] ∧
    ModelHandler_delete "u" (some pendingModelExample) =
      .ok [.deleteRecord, .fetchAction "cesium/FETCH_MODELS", .respondSuccess] ∧
    PredictionHandler_delete "bob" (some pendingPredictionExample) =
      .error (.accessError "No such dataset") :=
  ⟨(C7_delete_only_when_owned "u" 1 2 3 ⟨"u", "p", "d"⟩ ⟨"bob", "d", []⟩
      ⟨"u", "f.nc", none⟩ pendingModelExample pendingPredictionExample).1
      (by decide),
   (C7_delete_only_when_owned "u" 1 2 3 ⟨"u", "p", "d"⟩ ⟨"bob", "d", []⟩
      ⟨"u", "f.nc", none⟩ pendingModelExample pendingPredictionExample).2.2.2.1
      (by decide),
   (C7_delete_only_when_owned "u" 1 2 3 ⟨"u", "p", "d"⟩ ⟨"bob", "d", []⟩
      ⟨"u", "f.nc", none⟩ pendingModelExample pendingPredictionExample).2.2.2.2.1
      (by decide),
   (C7_delete_only_when_owned "u" 1 2 3 ⟨"u", "p", "d"⟩ ⟨"bob", "d", []⟩
      ⟨"u", "f.nc", none⟩ pendingModelExample pendingPredictionExample).2.2.2.2.2.2.1
      (by decide),
   (C7_delete_only_when_owned "bob" 1 2 3 ⟨"u", "p", "d"⟩ ⟨"bob", "d", []⟩
      ⟨"u", "f.nc", none⟩ pendingModelExample
      pendingPredictionExample).2.2.2.2.2.2.2.2.2.2.1
      (by decide)⟩

/-- C9: when a Dataset upload fails validation (`DataFormatError` or
`TimeSeriesFileNameError`), the handler removes both files it had saved to
the upload folder before returning the error response and creates no
Dataset record; and when the dataset name strips to the empty string, an
error is returned before any file is saved or record created. -/
theorem C9_upload_cleanup
    (name : String) (header : List String) (tar : List TarMember)
    (err : CheckError) :
    (strip name = "" →
       Dataset_post name header tar =
         .ok [.respondError ("Dataset Title must contain non-whitespace " ++
           "characters. Please try a different title.")]) ∧
    (strip name ≠ "" →
       check_headerfile_and_tsdata_format header tar = .error err →
       Dataset_post name header tar =
         .ok [.saveFile "headerfile", .saveFile "zipfile",
              .removeFile "headerfile", .removeFile "zipfile",
              .respondError (checkErrorMessage err)]) := by
  constructor
  · intro h
    simp [Dataset_post, h]
  · intro h hcheck
    rcases err with msg | msg <;>
      simp [Dataset_post, h, hcheck, checkErrorMessage]

/-- Witness for C9: a blank title is rejected before any file is saved,
and a malformed header (one column) yields save-save-remove-remove-error. -/
theorem C9_witness :
    Dataset_post "  " ["x"] [] =
      .ok [.respondError ("Dataset Title must contain non-whitespace " ++
        "characters. Please try a different title.")] ∧
    Dataset_post "n" ["x"] [] =
      .ok [.saveFile "headerfile", .saveFile "zipfile",
           .removeFile "headerfile", .removeFile "zipfile",
           .respondError (checkErrorMessage (.dataFormat
             ("Header file improperly formatted. At least two " ++
              "comma-separated columns (file_name,class_name) are required.")))] :=
  ⟨(C9_upload_cleanup "  " ["x"] []
      (.dataFormat ("Header file improperly formatted. At least two " ++
        "comma-separated columns (file_name,class_name) are required."))).1
      (by decide),
   (C9_upload_cleanup "n" ["x"] []
      (.dataFormat ("Header file improperly formatted. At least two " ++
        "comma-separated columns (file_name,class_name) are required."))).2
      (by decide) rfl⟩

/-- C10: for every Model and Prediction record, the
(`task_id`, `finished`) pair stays mutually exclusive: the record the
model POST persists at creation-and-submission has a non-null `task_id`
and a null `finished`; the prediction POST creates its record with both
columns null and, raising `NameError` before the assignment at
`prediction.py` line 119, never sets `task_id` (still mutually
exclusive); the only operation that sets `finished` (a waiter's success
save) also sets `task_id` to null in the same save; and every reachable
job-record state has `task_id` null or `finished` null. -/
theorem C10_task_id_finished_mutex
    (username : String) (fset : Featureset) (mn mt : String)
    (ps : List (String × String)) (nextKey : Nat)
    (dataset : DatasetRecord) (model : ModelRecord) (fset2 : Featureset)
    (k0 : Nat) (s : JobState)
    (hreach : JobReachable s) :
    mutexState s ∧
    (∀ r, (ModelHandler_post username fset mn mt ps nextKey).pending = some r →
       r.task_id = some nextKey ∧ r.finished = none) ∧
    (∀ r, (PredictionHandler_post username dataset model fset2 k0).pending = some r →
       r.task_id = none ∧ r.finished = none) ∧
    (∀ (now : Nat) (res : Except String (Int × List (String × String)))
       (m : ModelRecord) (m' : ModelRecord),
       (await_model_statistics now res m).1 = .finished m' →
       m'.task_id = none ∧ m'.finished = some now ∧
       Event.saveRecord none (some now) ∈ (await_model_statistics now res m).2) ∧
    (∀ (now : Nat) (res : Except String Unit) (p : PredictionRecord)
       (p' : PredictionRecord),
       (await_prediction now res p).1 = .finished p' →
       p'.task_id = none ∧ p'.finished = some now ∧
       Event.saveRecord none (some now) ∈ (await_prediction now res p).2) := by
  refine ⟨?_, ?_, ?_, ?_, ?_⟩
  · induction hreach with
    | created => exact Or.inl rfl
    | assigned k _ _ => exact Or.inr rfl
    | modelWaited now res m _ _ =>
        rcases res with e | ⟨score, bp⟩
        · exact trivial
        · exact Or.inl rfl
    | predWaited now res p _ _ =>
        rcases res with e | u
        · exact trivial
        · exact Or.inl rfl
  · intro r hr
    by_cases h1 : is_owned_by fset.owner username
    · by_cases h2 : fset.finished = none
      · simp [ModelHandler_post, h1, h2] at hr
      · simp [ModelHandler_post, h1, h2] at hr
        simp [← hr]
    · simp [ModelHandler_post, h1] at hr
  · intro r hr
    by_cases h1 : is_owned_by dataset.owner username &&
        is_owned_by model.owner username
    · by_cases h2 : model.finished = none ∨ fset2.finished = none
      · simp [PredictionHandler_post, h1, h2] at hr
      · simp [PredictionHandler_post, h1, h2] at hr
        simp [← hr]
    · simp [PredictionHandler_post, h1] at hr
  · intro now res m m' h
    rcases res with e | ⟨score, bp⟩
    · exact absurd h (by simp [await_model_statistics])
    · injection h with h'
      subst h'
      exact ⟨rfl, rfl, by simp [await_model_statistics]⟩
  · intro now res p p' h
    rcases res with e | u
    · exact absurd h (by simp [await_prediction])
    · injection h with h'
      subst h'
      exact ⟨rfl, rfl, by simp [await_prediction]⟩

/-- Witness for C10: the freshly created state satisfies the invariant,
and the record persisted by a concrete successful model POST has
`task_id = some 5` and `finished = none`. -/
theorem C10_witness :
    mutexState (JobState.present none none) ∧
    ((ModelRecord.mk "u" "mn" "mt" (some 5) none none []).task_id = some 5 ∧
     (ModelRecord.mk "u" "mn" "mt" (some 5) none none []).finished = none) :=
  ⟨(C10_task_id_finished_mutex "u" ⟨"u", "f.nc", some 1⟩ "mn" "mt" [] 5
      ⟨"u", "d", ["u1"]⟩ pendingModelFinishedExample ⟨"u", "f.nc", some 1⟩ 0
      (JobState.present none none) JobReachable.created).1,
   (C10_task_id_finished_mutex "u" ⟨"u", "f.nc", some 1⟩ "mn" "mt" [] 5
      ⟨"u", "d", ["u1"]⟩ pendingModelFinishedExample ⟨"u", "f.nc", some 1⟩ 0
      (JobState.present none none) JobReachable.created).2.1
     ⟨"u", "mn", "mt", some 5, none, none, []⟩ rfl⟩

/-- C4 counterexample: a DELETE of a project the requesting user does not
own raises `UnauthorizedAccess`, which the handler does not catch — the
request's outcome is a propagated exception, not a JSON error response or
a record deletion. -/
theorem C4_counterexample :
    Project_delete "alice" (some 1) ⟨"bob", "p", "d"⟩ =
      .error (.unauthorizedAccess "User not authorized for project.") := rfl

/-- C4 amended: errors raised while handling a request are caught inside
the handler and turned into a generic JSON error response or record
deletion only on specific paths — project creation, the dataset-upload
validation errors, and the background waiters; elsewhere the handlers let
exceptions propagate uncaught: the DELETE/lookup paths raise
`UnauthorizedAccess` / `AccessError` for foreign or missing records, the
dataset-upload handler re-raises every non-validation exception through a
bare `except: raise`, and the features and prediction POST handlers raise
`NameError` on the undefined names `featurizationPage` and `featurize`. -/
theorem C4_amended_error_handling
    (addResult : Except String Unit) (now : Nat) (e : String)
    (m : ModelRecord) (p : PredictionRecord)
    (username : String) (pid did fid : Nat) (pr : ProjectRecord)
    (d : DatasetRecord) (f : Featureset) (mrec : ModelRecord)
    (prec : PredictionRecord)
    (dataset2 : DatasetRecord) (model2 : ModelRecord) (fset2 : Featureset)
    (k0 : Nat) :
    (∃ evs, Project_post addResult = .ok evs) ∧
    (∀ msg, addResult = .error msg →
       Project_post addResult = .ok [.respondError msg]) ∧
    ((await_model_statistics now (.error e) m).1 = .deleted ∧
     Event.deleteRecord ∈ (await_model_statistics now (.error e) m).2) ∧
    ((await_prediction now (.error e) p).1 = .deleted ∧
     Event.deleteRecord ∈ (await_prediction now (.error e) p).2) ∧
    (is_owned_by pr.owner username = false →
       Project_delete username (some pid) pr =
         .error (.unauthorizedAccess "User not authorized for project.")) ∧
    (is_owned_by d.owner username = false →
       Dataset_delete username (some did) d =
         .error (.unauthorizedAccess "User not authorized for project.")) ∧
    (is_owned_by f.owner username = false →
       Features_delete username (some fid) f =
         .error (.unauthorizedAccess "User not authorized for project.")) ∧
    (is_owned_by mrec.owner username = false →
       ModelHandler_delete username (some mrec) =
         .error (.accessError "No such project")) ∧
    (ModelHandler_delete username none =
       .error (.accessError "No such model")) ∧
    (is_owned_by prec.owner username = false →
       PredictionHandler_delete username (some prec) =
         .error (.accessError "No such dataset")) ∧
    (∀ msg, Dataset_post_exception_ladder (.other msg) =
       .error (.uncaught msg)) ∧
    (∀ b, (Features_post b).2 =
       some "NameError: name featurizationPage is not defined") ∧
    (is_owned_by dataset2.owner username = true →
     is_owned_by model2.owner username = true →
     model2.finished ≠ none → fset2.finished ≠ none →
     (PredictionHandler_post username dataset2 model2 fset2 k0).raised =
       some "NameError: name featurize is not defined") := by
  refine ⟨?_, ?_, ⟨rfl, by simp [await_model_statistics]⟩,
    ⟨rfl, by simp [await_prediction]⟩, fun h => ?_, fun h => ?_, fun h => ?_,
    fun h => ?_, rfl, fun h => ?_, fun msg => rfl, fun b => rfl,
    fun hg1 hg2 hg3 hg4 => ?_⟩
  · rcases addResult with msg | u
    · exact ⟨_, rfl⟩
    · exact ⟨_, rfl⟩
  · intro msg hmsg
    subst hmsg
    rfl
  · simp [Project_delete, h]
  · simp [Dataset_delete, h]
  · simp [Features_delete, h]
  · simp [ModelHandler_delete, ModelHandler_get_model, h]
  · simp [PredictionHandler_delete, PredictionHandler_get_prediction, h]
  · simp [PredictionHandler_post, hg1, hg2, hg3, hg4]

/-- Witness for C4's amended claim: a failing project creation is caught,
a foreign-dataset DELETE propagates `UnauthorizedAccess`, the dataset
upload re-raises a non-validation exception, the features POST raises
`NameError`, and a guarded prediction POST raises `NameError`. -/
theorem C4_amended_witness :
    Project_post (.error "boom") = .ok [.respondError "boom"] ∧
    Dataset_delete "alice" (some 2) ⟨"bob", "d", []⟩ =
      .error (.unauthorizedAccess "User not authorized for project.") ∧
    Dataset_post_exception_ladder (.other "tarfile.ReadError") =
      .error (.uncaught "tarfile.ReadError") ∧
    (Features_post true).2 =
      some "NameError: name featurizationPage is not defined" ∧
    (PredictionHandler_post "u" ⟨"u", "d", ["u1"]⟩ pendingModelFinishedExample
      ⟨"u", "f.nc", some 1⟩ 0).raised =
      some "NameError: name featurize is not defined" :=
  ⟨(C4_amended_error_handling (.error "boom") 0 "x" pendingModelExample
      pendingPredictionExample "alice" 1 2 3 ⟨"bob", "p", "d"⟩ ⟨"bob", "d", []⟩
      ⟨"bob", "f.nc", none⟩ pendingModelExample pendingPredictionExample
      ⟨"u", "d", ["u1"]⟩ pendingModelFinishedExample ⟨"u", "f.nc", some 1⟩
      0).2.1 "boom" rfl,
   (C4_amended_error_handling (.error "boom") 0 "x" pendingModelExample
      pendingPredictionExample "alice" 1 2 3 ⟨"bob", "p", "d"⟩ ⟨"bob", "d", []⟩
      ⟨"bob", "f.nc", none⟩ pendingModelExample pendingPredictionExample
      ⟨"u", "d", ["u1"]⟩ pendingModelFinishedExample ⟨"u", "f.nc", some 1⟩
      0).2.2.2.2.2.1 (by decide),
   (C4_amended_error_handling (.error "boom") 0 "x" pendingModelExample
      pendingPredictionExample "alice" 1 2 3 ⟨"bob", "p", "d"⟩ ⟨"bob", "d", []⟩
      ⟨"bob", "f.nc", none⟩ pendingModelExample pendingPredictionExample
      ⟨"u", "d", ["u1"]⟩ pendingModelFinishedExample ⟨"u", "f.nc", some 1⟩
      0).2.2.2.2.2.2.2.2.2.2.1 "tarfile.ReadError",
   (C4_amended_error_handling (.error "boom") 0 "x" pendingModelExample
      pendingPredictionExample "alice" 1 2 3 ⟨"bob", "p", "d"⟩ ⟨"bob", "d", []⟩
      ⟨"bob", "f.nc", none⟩ pendingModelExample pendingPredictionExample
      ⟨"u", "d", ["u1"]⟩ pendingModelFinishedExample ⟨"u", "f.nc", some 1⟩
      0).2.2.2.2.2.2.2.2.2.2.2.1 true,
   (C4_amended_error_handling (.error "boom") 0 "x" pendingModelExample
      pendingPredictionExample "u" 1 2 3 ⟨"bob", "p", "d"⟩ ⟨"bob", "d", []⟩
      ⟨"bob", "f.nc", none⟩ pendingModelExample pendingPredictionExample
      ⟨"u", "d", ["u1"]⟩ pendingModelFinishedExample ⟨"u", "f.nc", some 1⟩
      0).2.2.2.2.2.2.2.2.2.2.2.2 (by decide) (by decide) (by decide)
      (by decide)⟩

/-- A successful header scan returns the first columns of the non-blank
lines, and no header line violates the two-column requirement. -/
theorem parseHeader_ok (header : List String) (ns : List String)
    (h : parseHeader header = .ok ns) :
    ns = specHeaderFnames header ∧ headerBadCond header = false := by
  induction header generalizing ns with
  | nil =>
      simp [parseHeader] at h
      subst h
      simp [specHeaderFnames, headerBadCond]
  | cons line rest ih =>
      rw [parseHeader] at h
      by_cases h1 : strip line = ""
      · simp only [if_pos h1] at h
        obtain ⟨h2, h3⟩ := ih ns h
        constructor
        · rw [h2]
          simp [specHeaderFnames, h1]
        · simp [headerBadCond, h1]
          simpa [headerBadCond] using h3
      · simp only [if_neg h1] at h
        by_cases h2 : (splitStr ',' (strip line)).length < 2
        · simp [if_pos h2] at h
        · simp only [if_neg h2] at h
          rcases hrest : parseHeader rest with e | tail
          · rw [hrest] at h
            simp at h
          · rw [hrest] at h
            simp at h
            obtain ⟨h3, h4⟩ := ih tail hrest
            constructor
            · rw [← h, h3]
              simp [specHeaderFnames, h1]
            · simp [headerBadCond, h1, h2]
              simpa [headerBadCond] using h4

/-- A failing header scan signals a `DataFormatError`, and some header
line violates the two-column requirement. -/
theorem parseHeader_error (header : List String) (e : CheckError)
    (h : parseHeader header = .error e) :
    headerBadCond header = true ∧ ∃ msg, e = .dataFormat msg := by
  induction header generalizing e with
  | nil => simp [parseHeader] at h
  | cons line rest ih =>
      rw [parseHeader] at h
      by_cases h1 : strip line = ""
      · simp only [if_pos h1] at h
        obtain ⟨h2, h3⟩ := ih e h
        refine ⟨?_, h3⟩
        simp [headerBadCond, h1]
        simpa [headerBadCond] using h2
      · simp only [if_neg h1] at h
        by_cases h2 : (splitStr ',' (strip line)).length < 2
        · simp only [if_pos h2] at h
          injection h with h'
          refine ⟨?_, ⟨_, h'.symm⟩⟩
          simp [headerBadCond]
          exact Or.inl ⟨h1, h2⟩
        · simp only [if_neg h2] at h
          rcases hrest : parseHeader rest with e' | tail
          · rw [hrest] at h
            simp at h
            obtain ⟨h3, h4⟩ := ih e' hrest
            subst h
            refine ⟨?_, h4⟩
            simp [headerBadCond]
            simp [headerBadCond] at h3
            exact Or.inr h3
          · rw [hrest] at h
            simp at h

/-- When no header line is bad, the scan succeeds with the spec-level
name list. -/
theorem parseHeader_complete (header : List String)
    (h : headerBadCond header = false) :
    parseHeader header = .ok (specHeaderFnames header) := by
  rcases hres : parseHeader header with e | ns
  · exact absurd (parseHeader_error header e hres).1 (by simp [h])
  · obtain ⟨h1, _⟩ := parseHeader_ok header ns hres
    rw [h1]

/-- The per-line column check succeeds exactly when every remaining line
has the first line's column count. -/
theorem checkRestLines_ok_iff (fn : String) (k ln : Nat) (rest : List String) :
    checkRestLines fn k ln rest = .ok () ↔
      (rest.all fun l => decide ((splitStr ',' l).length = k)) = true := by
  induction rest generalizing ln with
  | nil => simp [checkRestLines]
  | cons l rest ih =>
      by_cases hl : (splitStr ',' l).length ≠ k
      · simp [checkRestLines, hl]
      · push_neg at hl
        simp [checkRestLines, hl, ih (ln + 1)]

/-- A failing per-line column check signals a `DataFormatError`. -/
theorem checkRestLines_error (fn : String) (k ln : Nat) (rest : List String)
    (e : CheckError) (h : checkRestLines fn k ln rest = .error e) :
    ∃ msg, e = .dataFormat msg := by
  induction rest generalizing ln with
  | nil => simp [checkRestLines] at h
  | cons l rest ih =>
      rw [checkRestLines] at h
      by_cases hl : (splitStr ',' l).length ≠ k
      · rw [if_pos hl] at h
        injection h with h'
        exact ⟨_, h'.symm⟩
      · rw [if_neg hl] at h
        exact ih (ln + 1) h

/-- The content check of one data file succeeds exactly when its columns
are well formed. -/
theorem checkDataLines_ok_iff (fn : String) (raw : List String) :
    checkDataLines fn raw = .ok () ↔ linesBad raw = false := by
  rw [checkDataLines, linesBad]
  generalize (raw.map strip).filter (fun l => l ≠ "") = ls
  cases ls with
  | nil => simp
  | cons first rest =>
      by_cases h2 : (splitStr ',' first).length < 2
      · simp [h2]
      · simp [h2, checkRestLines_ok_iff, List.all_eq_true, List.any_eq_true]

/-- A failing content check signals a `DataFormatError` and the file's
columns are bad. -/
theorem checkDataLines_error (fn : String) (raw : List String)
    (e : CheckError) (h : checkDataLines fn raw = .error e) :
    (∃ msg, e = .dataFormat msg) ∧ linesBad raw = true := by
  have hbad : linesBad raw = true := by
    by_contra hb
    rw [Bool.not_eq_true] at hb
    have hok := (checkDataLines_ok_iff fn raw).mpr hb
    rw [h] at hok
    simp at hok
  refine ⟨?_, hbad⟩
  rw [checkDataLines] at h
  split at h
  · simp at h
  · rename_i x line rest heq
    by_cases h2 : (splitStr ',' line).length < 2
    · simp [h2] at h
      exact ⟨_, h.symm⟩
    · simp only [h2, if_false, if_neg, not_false_iff] at h
      exact checkRestLines_error fn _ 2 _ e h

/-- A successful tarball scan returns exactly the name variants of the
regular files, and no member has a missing header entry or bad columns. -/
theorem checkMembers_ok (hns : List String) (tar : List TarMember)
    (vs : List String) (h : checkMembers hns tar = .ok vs) :
    vs = specAllVariants tar ∧
    tar.any (memberNameMissing hns) = false ∧
    tar.any memberColumnsBad = false := by
  induction tar generalizing vs with
  | nil =>
      simp [checkMembers] at h
      subst h
      simp [specAllVariants]
  | cons mem rest ih =>
      rw [checkMembers] at h
      by_cases hf : mem.isfile = true
      · rw [if_pos hf] at h
        by_cases hmiss : ((list_filename_variants mem.name).all
            fun v => ¬ hns.contains v) = true
        · rw [if_pos hmiss] at h
          simp at h
        · rw [if_neg hmiss] at h
          rcases hdl : checkDataLines mem.name mem.lines with e | u
          · rw [hdl] at h
            simp at h
          · rw [hdl] at h
            rcases hrest : checkMembers hns rest with e | tail
            · rw [hrest] at h
              simp at h
            · rw [hrest] at h
              simp at h
              obtain ⟨h1, h2, h3⟩ := ih tail hrest
              cases u
              have hlb : linesBad mem.lines = false :=
                (checkDataLines_ok_iff mem.name mem.lines).mp hdl
              rw [Bool.not_eq_true] at hmiss
              refine ⟨?_, ?_, ?_⟩
              · rw [← h, h1]
                simp [specAllVariants, List.filter_cons, hf]
              · simp only [List.any_cons, memberNameMissing, hf,
                  Bool.true_and, hmiss, h2, Bool.or_self]
              · simp only [List.any_cons, memberColumnsBad, hf,
                  Bool.true_and, hlb, h3, Bool.or_self]
      · rw [if_neg hf] at h
        obtain ⟨h1, h2, h3⟩ := ih vs h
        rw [Bool.not_eq_true] at hf
        refine ⟨?_, ?_, ?_⟩
        · rw [h1]
          simp [specAllVariants, List.filter_cons, hf]
        · simp only [List.any_cons, memberNameMissing, hf,
            Bool.false_and, Bool.false_or, h2]
        · simp only [List.any_cons, memberColumnsBad, hf,
            Bool.false_and, Bool.false_or, h3]

/-- A failing tarball scan signals either a `DataFormatError` with some
member's columns bad, or a `TimeSeriesFileNameError` with some member's
name missing from the header. -/
theorem checkMembers_error (hns : List String) (tar : List TarMember)
    (e : CheckError) (h : checkMembers hns tar = .error e) :
    ((∃ msg, e = .dataFormat msg) ∧ tar.any memberColumnsBad = true) ∨
    ((∃ msg, e = .tsFileName msg) ∧
      tar.any (memberNameMissing hns) = true) := by
  induction tar generalizing e with
  | nil => simp [checkMembers] at h
  | cons mem rest ih =>
      rw [checkMembers] at h
      by_cases hf : mem.isfile = true
      · rw [if_pos hf] at h
        by_cases hmiss : ((list_filename_variants mem.name).all
            fun v => ¬ hns.contains v) = true
        · rw [if_pos hmiss] at h
          injection h with h'
          right
          refine ⟨⟨_, h'.symm⟩, ?_⟩
          simp only [List.any_cons, memberNameMissing, hf, Bool.true_and,
            hmiss, Bool.true_or]
        · rw [if_neg hmiss] at h
          rcases hdl : checkDataLines mem.name mem.lines with e' | u
          · rw [hdl] at h
            injection h with h'
            subst h'
            obtain ⟨hmsg, hbad⟩ := checkDataLines_error mem.name mem.lines e' hdl
            left
            refine ⟨hmsg, ?_⟩
            simp [List.any_cons, memberColumnsBad, hf, hbad]
          · rw [hdl] at h
            rcases hrest : checkMembers hns rest with e' | tail
            · rw [hrest] at h
              injection h with h'
              subst h'
              rcases ih e' hrest with ⟨hmsg, hany⟩ | ⟨hmsg, hany⟩
              · exact Or.inl ⟨hmsg, by simp only [List.any_cons, hany, Bool.or_true]⟩
              · exact Or.inr ⟨hmsg, by simp only [List.any_cons, hany, Bool.or_true]⟩
            · rw [hrest] at h
              simp at h
      · rw [if_neg hf] at h
        rcases ih e h with ⟨hmsg, hany⟩ | ⟨hmsg, hany⟩
        · exact Or.inl ⟨hmsg, by simp only [List.any_cons, hany, Bool.or_true]⟩
        · exact Or.inr ⟨hmsg, by simp only [List.any_cons, hany, Bool.or_true]⟩

/-- When every member is named in the header and has good columns, the
tarball scan succeeds with all the accumulated name variants. -/
theorem checkMembers_complete (hns : List String) (tar : List TarMember)
    (h1 : tar.any (memberNameMissing hns) = false)
    (h2 : tar.any memberColumnsBad = false) :
    checkMembers hns tar = .ok (specAllVariants tar) := by
  rcases hres : checkMembers hns tar with e | vs
  · rcases checkMembers_error hns tar e hres with ⟨_, hany⟩ | ⟨_, hany⟩
    · rw [hany] at h2
      simp at h2
    · rw [hany] at h1
      simp at h1
  · obtain ⟨hv, _, _⟩ := checkMembers_ok hns tar vs hres
    rw [hv]

/-- A successful coverage check returns `false`, and every header entry
appears among the tarball's name variants. -/
theorem checkHeaderCovered_ok (vs hns : List String) (b : Bool)
    (h : checkHeaderCovered vs hns = .ok b) :
    b = false ∧ (hns.all fun hn => vs.contains hn) = true := by
  induction hns with
  | nil =>
      simp [checkHeaderCovered] at h
      simp [← h]
  | cons hn rest ih =>
      rw [checkHeaderCovered] at h
      by_cases hc : vs.contains hn = true
      · rw [if_pos hc] at h
        obtain ⟨hb, hall⟩ := ih h
        exact ⟨hb, by simp only [List.all_cons, hc, Bool.true_and, hall]⟩
      · rw [if_neg hc] at h
        simp at h

/-- A failing coverage check signals a `TimeSeriesFileNameError`, and some
header entry has no matching tarball name variant. -/
theorem checkHeaderCovered_error (vs hns : List String) (e : CheckError)
    (h : checkHeaderCovered vs hns = .error e) :
    (∃ msg, e = .tsFileName msg) ∧
    (hns.any fun hn => ¬ vs.contains hn) = true := by
  induction hns generalizing e with
  | nil => simp [checkHeaderCovered] at h
  | cons hn rest ih =>
      rw [checkHeaderCovered] at h
      by_cases hc : vs.contains hn = true
      · rw [if_pos hc] at h
        obtain ⟨hmsg, hany⟩ := ih e h
        exact ⟨hmsg, by simp only [List.any_cons, hany, Bool.or_true]⟩
      · rw [if_neg hc] at h
        injection h with h'
        rw [Bool.not_eq_true] at hc
        exact ⟨⟨_, h'.symm⟩, by
          simp only [List.any_cons, hc]
          simp⟩

/-- When every header entry is covered, the coverage check returns
`false`. -/
theorem checkHeaderCovered_complete (vs hns : List String)
    (h : (hns.any fun hn => ¬ vs.contains hn) = false) :
    checkHeaderCovered vs hns = .ok false := by
  rcases hres : checkHeaderCovered vs hns with e | b
  · obtain ⟨_, hany⟩ := checkHeaderCovered_error vs hns e hres
    rw [hany] at h
    simp at h
  · obtain ⟨hb, _⟩ := checkHeaderCovered_ok vs hns b hres
    rw [hb]

/-- C8: `check_headerfile_and_tsdata_format` returns the boolean `False`
(never `True`) for every correctly formatted header-file/tarball pair, and
otherwise raises: a `DataFormatError` only when the header file or a data
file has fewer than two comma-separated columns or a data file has
inconsistent column counts across lines; a `TimeSeriesFileNameError` only
when a data file in the tarball has no matching header entry or a header
entry has no matching file in the tarball; and it raises (rather than
returning) exactly when one of those conditions holds. -/
theorem C8_check_format_characterization (header : List String)
    (tar : List TarMember) :
    (∀ b, check_headerfile_and_tsdata_format header tar = .ok b →
       b = false) ∧
    (∀ b, check_headerfile_and_tsdata_format header tar = .ok b →
       dataFormatCond header tar = false ∧ tsNameCond header tar = false) ∧
    (dataFormatCond header tar = false → tsNameCond header tar = false →
       check_headerfile_and_tsdata_format header tar = .ok false) ∧
    (∀ msg, check_headerfile_and_tsdata_format header tar =
        .error (.dataFormat msg) → dataFormatCond header tar = true) ∧
    (∀ msg, check_headerfile_and_tsdata_format header tar =
        .error (.tsFileName msg) → tsNameCond header tar = true) := by
  refine ⟨?_, ?_, ?_, ?_, ?_⟩
  · intro b h
    rw [check_headerfile_and_tsdata_format] at h
    rcases hph : parseHeader header with e | ns
    · rw [hph] at h
      simp at h
    · rw [hph] at h
      simp only [] at h
      rcases hcm : checkMembers ns tar with e | vs
      · rw [hcm] at h
        simp at h
      · rw [hcm] at h
        simp only [] at h
        exact (checkHeaderCovered_ok vs ns b h).1
  · intro b h
    rw [check_headerfile_and_tsdata_format] at h
    rcases hph : parseHeader header with e | ns
    · rw [hph] at h
      simp at h
    · rw [hph] at h
      simp only [] at h
      obtain ⟨hns, hhb⟩ := parseHeader_ok header ns hph
      rcases hcm : checkMembers ns tar with e | vs
      · rw [hcm] at h
        simp at h
      · rw [hcm] at h
        simp only [] at h
        obtain ⟨hvs, hnm, hcb⟩ := checkMembers_ok ns tar vs hcm
        obtain ⟨_, hall⟩ := checkHeaderCovered_ok vs ns b h
        subst hns
        subst hvs
        constructor
        · simp only [dataFormatCond, hhb, hcb, Bool.or_self]
        · simp only [tsNameCond, hnm, Bool.false_or]
          rw [List.any_eq_false]
          intro hn hmem
          simp only [List.all_eq_true] at hall
          have hmem2 : hn ∈ specAllVariants tar :=
            List.mem_of_elem_eq_true (hall hn hmem)
          simp [hmem2]
  · intro hdf htn
    simp only [dataFormatCond, Bool.or_eq_false_iff] at hdf
    simp only [tsNameCond, Bool.or_eq_false_iff] at htn
    simp only [check_headerfile_and_tsdata_format,
      parseHeader_complete header hdf.1,
      checkMembers_complete _ _ htn.1 hdf.2]
    exact checkHeaderCovered_complete _ _ htn.2
  · intro msg h
    rw [check_headerfile_and_tsdata_format] at h
    rcases hph : parseHeader header with e | ns
    · rw [hph] at h
      obtain ⟨hhb, _⟩ := parseHeader_error header e hph
      simp only [dataFormatCond, hhb, Bool.true_or]
    · rw [hph] at h
      simp only [] at h
      rcases hcm : checkMembers ns tar with e | vs
      · rw [hcm] at h
        simp only [Except.error.injEq] at h
        subst h
        rcases checkMembers_error ns tar _ hcm with ⟨_, hany⟩ | ⟨hmsg, _⟩
        · simp only [dataFormatCond, hany, Bool.or_true]
        · obtain ⟨m, hm⟩ := hmsg
          simp at hm
      · rw [hcm] at h
        simp only [] at h
        obtain ⟨hmsg, _⟩ := checkHeaderCovered_error vs ns _ h
        obtain ⟨m, hm⟩ := hmsg
        simp at hm
  · intro msg h
    rw [check_headerfile_and_tsdata_format] at h
    rcases hph : parseHeader header with e | ns
    · rw [hph] at h
      simp only [Except.error.injEq] at h
      subst h
      obtain ⟨_, hmsg⟩ := parseHeader_error header _ hph
      obtain ⟨m, hm⟩ := hmsg
      simp at hm
    · rw [hph] at h
      simp only [] at h
      obtain ⟨hns, _⟩ := parseHeader_ok header ns hph
      subst hns
      rcases hcm : checkMembers (specHeaderFnames header) tar with e | vs
      · rw [hcm] at h
        simp only [Except.error.injEq] at h
        subst h
        rcases checkMembers_error _ tar _ hcm with ⟨hmsg, _⟩ | ⟨_, hany⟩
        · obtain ⟨m, hm⟩ := hmsg
          simp at hm
        · simp only [tsNameCond, hany, Bool.true_or]
      · rw [hcm] at h
        simp only [] at h
        obtain ⟨hvs, _, _⟩ := checkMembers_ok _ tar vs hcm
        subst hvs
        obtain ⟨_, hany⟩ := checkHeaderCovered_error _ _ _ h
        simp only [tsNameCond, hany, Bool.or_true]

/-- Witness for C8: a well-formed pair returns `False`, and a one-column
header triggers the `DataFormatError` condition. -/
theorem C8_witness :
    check_headerfile_and_tsdata_format ["a.dat,classA"]
      [⟨"data/a.dat", true, ["1,2", "3,4"]⟩] = .ok false ∧
    dataFormatCond ["onlyonecolumn"] [] = true :=
  ⟨(C8_check_format_characterization ["a.dat,classA"]
      [⟨"data/a.dat", true, ["1,2", "3,4"]⟩]).2.2.1 (by decide) (by decide),
   (C8_check_format_characterization ["onlyonecolumn"] []).2.2.2.1
     ("Header file improperly formatted. At least two " ++
      "comma-separated columns (file_name,class_name) are required.") rfl⟩

end Cesium
